import Mathlib

/-!
Shallow embedding of `src/rpi-pwrbtn.c`: a push-button power supervisor for a
single-board host, running on an AVR microcontroller.  The embedding models
the supervisory state machine — the `data` struct (state, timer, seconds,
pin snapshot) together with the `PORTB` output register — and the functions
`delay`, `state_change`, `boot_tick`, `shutdown_tick`, `bork_tick`, `setup`,
`loop` and the pin-change interrupt handler `ISR`.

Machine integers are modelled as `Nat` with explicit reduction: `timer` is a
`uint16_t` (mod 65536), `seconds` and the registers are 8-bit (mod 256 where
an overflow can occur).  The `PINB` input register is external input: every
function of the source that reads `PINB` takes its current value as an
argument.  Register-level hardware bring-up in `setup` (DDRB direction bits,
GIMSK/PCMSK interrupt enables, sleep-mode selection) is out of the core per
the spec and is not part of the data model; the `PORTB` writes of `setup`
are modelled because they determine the output line levels.
-/

/-- Bit index of the push-button input line (`DDB2` in the source). -/
def BTN : Nat := 2

/-- Bit index of the status LED output line (`DDB1` in the source). -/
def LED : Nat := 1

/-- Bit index of the host power-enable output line (`DDB0`).  The source
drives it LOW on boot ("power ON") and HIGH on poweroff, so the line is
active-low: asserted means the bit is clear. -/
def RPI_PWR : Nat := 0

/-- Bit index of the host-ready input line (`DDB3`). -/
def RPI_IN : Nat := 3

/-- Bit index of the shutdown-request output line (`DDB4`).  Driven HIGH to
tell the host to shut down, so asserted means the bit is set. -/
def RPI_OUT : Nat := 4

/-- Boot timeout in seconds (`BOOT_TIMEOUT` in the source). -/
def BOOT_TIMEOUT : Nat := 40

/-- Shutdown timeout in seconds (`SHUTDOWN_TIMEOUT` in the source). -/
def SHUTDOWN_TIMEOUT : Nat := 40

/-- Modelled from the spec: `_BV` comes from the AVR headers pulled in via
`common/defs.h`, which is not under `src/`; it is the standard single-bit
mask `1 << b` used by the pin macros of §6 of the spec. -/
def _BV (b : Nat) : Nat := 1 <<< b

/-- Modelled from the spec: `HIGH(port, b)` from `common/defs.h` (not under
`src/`) drives line `b` of an 8-bit port register high, the standard
`port |= _BV(b)` set-bit macro implied by the signal table of §6. -/
def HIGH (r b : Nat) : Nat := r ||| _BV b

/-- Modelled from the spec: `LOW(port, b)` from `common/defs.h` (not under
`src/`) drives line `b` of an 8-bit port register low, the standard
`port &= (uint8_t)~_BV(b)` clear-bit macro implied by §6. -/
def LOW (r b : Nat) : Nat := r &&& (255 ^^^ _BV b)

/-- Modelled from the spec: `TOGGLE(port, b)` from `common/defs.h` (not
under `src/`) flips line `b` of a port register, the standard
`port ^= _BV(b)` macro used for LED blinking in §4.3. -/
def TOGGLE (r b : Nat) : Nat := r ^^^ _BV b

/-- The five supervisor states, source enum `__state_t`. -/
inductive state_t
  | unknown_state
  | boot_state
  | idle_state
  | shutdown_state
  | poweroff_state
deriving DecidableEq, Repr

/-- The mutable state of the supervisor: the source struct `data`
(`state`, `timer`, `seconds`, `pinb`) extended with the `PORTB` output
register, which holds the levels of the LED, power-enable and
shutdown-request lines. -/
structure Data where
  state : state_t
  timer : Nat
  seconds : Nat
  pinb : Nat
  portb : Nat
deriving DecidableEq, Repr

/-- Modelled from the spec: the raw blocking delay `DELAY` (`_delay_ms`
behind `common/defs.h`, not under `src/`) blocks for the given wall time
and touches no supervisor data. -/
def DELAY (msecs : Nat) (d : Data) : Data := d

/-- The timing accumulator, source function `delay`.  In the timed states
it blocks and folds the blocked milliseconds into `timer` (a `uint16_t`,
hence mod 65536) with a single carry into `seconds` (a `uint8_t`, hence
mod 256) once `timer` reaches a full second; in every other state it only
blocks. -/
def delay (msecs : Nat) (d : Data) : Data :=
  match d.state with
  | state_t.boot_state | state_t.shutdown_state =>
      let d := DELAY msecs d
      let t := (d.timer + msecs) % 65536
      if t ≥ 1000 then
        { d with timer := t - 1000, seconds := (d.seconds + 1) % 256 }
      else
        { d with timer := t }
  | _ => DELAY msecs d

/-- The state-machine transition, source function `state_change`: store the
new state, then run its entry action on `PORTB` and the clock counters. -/
def state_change (new_state : state_t) (d : Data) : Data :=
  let d := { d with state := new_state }
  match new_state with
  | state_t.boot_state =>
      { d with portb := LOW (LOW (LOW d.portb LED) RPI_PWR) RPI_OUT,
               timer := 0, seconds := 0 }
  | state_t.shutdown_state =>
      { d with portb := LOW (HIGH d.portb RPI_OUT) LED,
               timer := 0, seconds := 0 }
  | state_t.poweroff_state =>
      { d with portb := LOW (LOW (HIGH d.portb RPI_PWR) LED) RPI_OUT }
  | state_t.idle_state =>
      { d with portb := HIGH d.portb LED }
  | state_t.unknown_state => d

/-- One boot-phase tick, source function `boot_tick`: toggle the LED, block
for 200 ms through the accumulator, and move to `idle_state` once the
accumulated seconds reach the boot timeout. -/
def boot_tick (d : Data) : Data :=
  let d := { d with portb := TOGGLE d.portb LED }
  let d := delay 200 d
  if d.seconds ≥ BOOT_TIMEOUT then state_change state_t.idle_state d else d

/-- One shutdown-phase tick, source function `shutdown_tick`: toggle the
LED, block for 500 ms through the accumulator, and move to
`poweroff_state` once the accumulated seconds reach the shutdown
timeout. -/
def shutdown_tick (d : Data) : Data :=
  let d := { d with portb := TOGGLE d.portb LED }
  let d := delay 500 d
  if d.seconds ≥ SHUTDOWN_TIMEOUT then state_change state_t.poweroff_state d else d

/-- The defensive error tick, source function `bork_tick`: a fast double
blink using the raw `DELAY`, which bypasses the accumulator. -/
def bork_tick (d : Data) : Data :=
  let d := { d with portb := TOGGLE d.portb LED }
  let d := DELAY 10 d
  let d := { d with portb := TOGGLE d.portb LED }
  DELAY 20 d

/-- Low-power sleep, `sleep_mode()` in the source: suspends the main line
of execution until an interrupt; it touches no supervisor data. -/
def sleep_mode (d : Data) : Data := d

/-- One pass of the tick dispatcher, source function `loop`. -/
def loop (d : Data) : Data :=
  match d.state with
  | state_t.boot_state => boot_tick d
  | state_t.shutdown_state => shutdown_tick d
  | state_t.idle_state | state_t.poweroff_state => sleep_mode d
  | state_t.unknown_state => bork_tick d

/-- The pin-change interrupt handler, source `ISR(PCINT0_vect)`.
`pinb_now` is the value the `PINB` input register holds during this
invocation.  The handler XORs it against the stored snapshot, stores the
new snapshot, then processes the host-ready rising edge and the button
rising edge in that order. -/
def ISR (pinb_now : Nat) (d : Data) : Data :=
  let pin_change := pinb_now ^^^ d.pinb
  let d := { d with pinb := pinb_now }
  let d :=
    if pin_change.testBit RPI_IN && pinb_now.testBit RPI_IN then
      match d.state with
      | state_t.boot_state => { d with seconds := BOOT_TIMEOUT }
      | _ => d
    else d
  if pin_change.testBit BTN && pinb_now.testBit BTN then
    match d.state with
    | state_t.idle_state => state_change state_t.shutdown_state d
    | state_t.poweroff_state => state_change state_t.boot_state d
    | _ => d
  else d

/-- Initialization, source function `setup`.  `pinb0` is the level of the
`PINB` input register at the moment the snapshot is taken.  The register
writes modelled are exactly the `PORTB` writes of the source (in source
order); DDRB direction bits, interrupt-enable registers and power-save
setup are hardware bring-up outside the core.  The routine ends by forcing
the machine from `unknown_state` to `poweroff_state`. -/
def setup (pinb0 : Nat) : Data :=
  let portb := 0
  let portb := LOW portb LED
  let portb := LOW portb BTN
  let portb := HIGH portb RPI_PWR
  let portb := LOW portb RPI_OUT
  let portb := LOW portb RPI_IN
  let d : Data :=
    { state := state_t.unknown_state, timer := 0, seconds := 0,
      pinb := pinb0, portb := portb }
  state_change state_t.poweroff_state d

/-- An external event: one pass of the tick dispatcher, or one pin-change
interrupt delivered with the given `PINB` level. -/
inductive Ev
  | tick
  | irq (pinb : Nat)

/-- Run one event against the supervisor state. -/
def runEv (e : Ev) (d : Data) : Data :=
  match e with
  | Ev.tick => loop d
  | Ev.irq p => ISR p d

/-- Run a finite interleaving of dispatcher passes and interrupts. -/
def run (es : List Ev) (d : Data) : Data :=
  es.foldl (fun d e => runEv e d) d

/-! ### Bit-level helper lemmas for the port macros -/

lemma BV_eq_two_pow (b : Nat) : _BV b = 2 ^ b := by
  simp [_BV, Nat.shiftLeft_eq]

lemma testBit_HIGH (r b i : Nat) :
    (HIGH r b).testBit i = (r.testBit i || decide (b = i)) := by
  simp [HIGH, BV_eq_two_pow, Nat.testBit_or, Nat.testBit_two_pow]

lemma testBit_255 (i : Nat) : (255 : Nat).testBit i = decide (i < 8) := by
  have h : (255 : Nat) = 2 ^ 8 - 1 := by norm_num
  rw [h, Nat.testBit_two_pow_sub_one]

lemma testBit_LOW (r b i : Nat) :
    (LOW r b).testBit i = (r.testBit i && ((decide (i < 8)).xor (decide (b = i)))) := by
  simp [LOW, BV_eq_two_pow, Nat.testBit_and, Nat.testBit_xor, Nat.testBit_two_pow,
    testBit_255]

lemma testBit_LOW_ge (r b i : Nat) (hb : b < 8) (hi : 8 ≤ i) :
    (LOW r b).testBit i = false := by
  have h1 : ¬ i < 8 := by omega
  have h2 : b ≠ i := by omega
  simp [testBit_LOW, h1, h2]

lemma testBit_TOGGLE (r b i : Nat) :
    (TOGGLE r b).testBit i = ((r.testBit i).xor (decide (b = i))) := by
  simp [TOGGLE, BV_eq_two_pow, Nat.testBit_xor, Nat.testBit_two_pow]

/-! ### Characterization of the entry actions -/

lemma state_change_idem (s : state_t) (d : Data) :
    state_change s (state_change s d) = state_change s d := by
  cases s <;> simp only [state_change]
  case idle_state =>
    congr 1
    simp [HIGH, Nat.or_assoc]
  case boot_state =>
    congr 1
    apply Nat.eq_of_testBit_eq
    intro i
    rcases Nat.lt_or_ge i 8 with hi | hi
    · interval_cases i <;>
        simp only [testBit_LOW, LED, RPI_PWR, RPI_OUT] <;> simp
    · rw [testBit_LOW_ge _ _ _ (by norm_num [RPI_OUT]) hi,
        testBit_LOW_ge _ _ _ (by norm_num [RPI_OUT]) hi]
  case shutdown_state =>
    congr 1
    apply Nat.eq_of_testBit_eq
    intro i
    rcases Nat.lt_or_ge i 8 with hi | hi
    · interval_cases i <;>
        simp only [testBit_LOW, testBit_HIGH, LED, RPI_OUT] <;> simp
    · rw [testBit_LOW_ge _ _ _ (by norm_num [LED]) hi,
        testBit_LOW_ge _ _ _ (by norm_num [LED]) hi]
  case poweroff_state =>
    congr 1
    apply Nat.eq_of_testBit_eq
    intro i
    rcases Nat.lt_or_ge i 8 with hi | hi
    · interval_cases i <;>
        simp only [testBit_LOW, testBit_HIGH, LED, RPI_PWR, RPI_OUT] <;> simp
    · rw [testBit_LOW_ge _ _ _ (by norm_num [RPI_OUT]) hi,
        testBit_LOW_ge _ _ _ (by norm_num [RPI_OUT]) hi]

lemma portb_state_change_boot (d : Data) (i : Nat) (hi : i < 8) :
    (state_change state_t.boot_state d).portb.testBit i =
      if i = LED ∨ i = RPI_PWR ∨ i = RPI_OUT then false else d.portb.testBit i := by
  simp only [state_change]
  interval_cases i <;>
    simp only [testBit_LOW, LED, RPI_PWR, RPI_OUT] <;> simp

lemma portb_state_change_shutdown (d : Data) (i : Nat) (hi : i < 8) :
    (state_change state_t.shutdown_state d).portb.testBit i =
      if i = RPI_OUT then true
      else if i = LED then false
      else d.portb.testBit i := by
  simp only [state_change]
  interval_cases i <;>
    simp only [testBit_LOW, testBit_HIGH, LED, RPI_OUT] <;> simp

lemma portb_state_change_poweroff (d : Data) (i : Nat) (hi : i < 8) :
    (state_change state_t.poweroff_state d).portb.testBit i =
      if i = RPI_PWR then true
      else if i = LED ∨ i = RPI_OUT then false
      else d.portb.testBit i := by
  simp only [state_change]
  interval_cases i <;>
    simp only [testBit_LOW, testBit_HIGH, LED, RPI_PWR, RPI_OUT] <;> simp

lemma portb_state_change_idle (d : Data) (i : Nat) :
    (state_change state_t.idle_state d).portb.testBit i =
      if i = LED then true else d.portb.testBit i := by
  simp only [state_change, LED]
  by_cases h : (1 : Nat) = i
  · subst h
    simp [testBit_HIGH]
  · simp [testBit_HIGH, h, Ne.symm h]

/-- C1: `state_change new_state` unconditionally stores the new state and
runs exactly the §4.1 entry action: for `boot_state` it clears the LED,
asserts power-enable (drives the active-low line LOW), deasserts the
shutdown line and zeroes both clock counters; for `shutdown_state` it
asserts the shutdown line, clears the LED and zeroes both counters; for
`poweroff_state` it deasserts power-enable (HIGH), clears the LED and
deasserts the shutdown line, leaving the counters untouched; for
`idle_state` it turns the LED steady on; for `unknown_state` it does
nothing beyond storing the state.  All other port lines are untouched, the
pin snapshot is untouched, and re-entering the same state re-runs the
entry action idempotently (resetting the clock again for timed states). -/
theorem C1_transition_entry_actions :
    ∀ (d : Data) (s : state_t),
      (state_change s d).state = s ∧
      (state_change s d).pinb = d.pinb ∧
      state_change s (state_change s d) = state_change s d ∧
      (s = state_t.boot_state →
        (state_change s d).timer = 0 ∧ (state_change s d).seconds = 0 ∧
        ∀ i : Fin 8, (state_change s d).portb.testBit i.val =
          if i.val = LED ∨ i.val = RPI_PWR ∨ i.val = RPI_OUT then false
          else d.portb.testBit i.val) ∧
      (s = state_t.shutdown_state →
        (state_change s d).timer = 0 ∧ (state_change s d).seconds = 0 ∧
        ∀ i : Fin 8, (state_change s d).portb.testBit i.val =
          if i.val = RPI_OUT then true
          else if i.val = LED then false
          else d.portb.testBit i.val) ∧
      (s = state_t.poweroff_state →
        (state_change s d).timer = d.timer ∧ (state_change s d).seconds = d.seconds ∧
        ∀ i : Fin 8, (state_change s d).portb.testBit i.val =
          if i.val = RPI_PWR then true
          else if i.val = LED ∨ i.val = RPI_OUT then false
          else d.portb.testBit i.val) ∧
      (s = state_t.idle_state →
        (state_change s d).timer = d.timer ∧ (state_change s d).seconds = d.seconds ∧
        ∀ i : Fin 8, (state_change s d).portb.testBit i.val =
          if i.val = LED then true else d.portb.testBit i.val) ∧
      (s = state_t.unknown_state →
        state_change s d = { d with state := state_t.unknown_state }) := by
  intro d s
  refine ⟨?_, ?_, state_change_idem s d, ?_, ?_, ?_, ?_, ?_⟩
  · cases s <;> rfl
  · cases s <;> rfl
  · rintro rfl
    exact ⟨rfl, rfl, fun i => portb_state_change_boot d i.val i.isLt⟩
  · rintro rfl
    exact ⟨rfl, rfl, fun i => portb_state_change_shutdown d i.val i.isLt⟩
  · rintro rfl
    exact ⟨rfl, rfl, fun i => portb_state_change_poweroff d i.val i.isLt⟩
  · rintro rfl
    exact ⟨rfl, rfl, fun i => portb_state_change_idle d i.val⟩
  · rintro rfl
    rfl

/-- Witness for C1: entering `boot_state` from a concrete supervisor state
zeroes both clock counters. -/
theorem C1_transition_entry_actions_witness :
    (state_change state_t.boot_state (Data.mk state_t.idle_state 7 9 3 255)).timer = 0 ∧
    (state_change state_t.boot_state (Data.mk state_t.idle_state 7 9 3 255)).seconds = 0 :=
  ⟨((C1_transition_entry_actions (Data.mk state_t.idle_state 7 9 3 255)
      state_t.boot_state).2.2.2.1 rfl).1,
   ((C1_transition_entry_actions (Data.mk state_t.idle_state 7 9 3 255)
      state_t.boot_state).2.2.2.1 rfl).2.1⟩

/-! ### The timing accumulator -/

lemma delay_timed (d : Data) (m : Nat)
    (hst : d.state = state_t.boot_state ∨ d.state = state_t.shutdown_state) :
    delay m d =
      (if (d.timer + m) % 65536 ≥ 1000 then
        { d with timer := (d.timer + m) % 65536 - 1000, seconds := (d.seconds + 1) % 256 }
      else
        { d with timer := (d.timer + m) % 65536 }) := by
  rcases hst with h | h <;> simp [delay, DELAY, h]

lemma delay_other (d : Data) (m : Nat)
    (hst : d.state = state_t.idle_state ∨ d.state = state_t.poweroff_state ∨
      d.state = state_t.unknown_state) :
    delay m d = d := by
  rcases hst with h | h | h <;> simp [delay, DELAY, h]

lemma delay_state (d : Data) (m : Nat) : (delay m d).state = d.state := by
  cases h : d.state <;> simp [delay, DELAY, h] <;> split <;> rfl

lemma delay_pinb (d : Data) (m : Nat) : (delay m d).pinb = d.pinb := by
  cases h : d.state <;> simp [delay, DELAY, h] <;> split <;> rfl

lemma delay_portb (d : Data) (m : Nat) : (delay m d).portb = d.portb := by
  cases h : d.state <;> simp [delay, DELAY, h] <;> split <;> rfl

/-- C4: in the timed states, `delay` adds the blocked milliseconds to the
sub-second counter and performs a single carry per call: when the sum
reaches 1000 the seconds counter goes up by exactly one (the increment is
the 8-bit `++`, so exactly one whenever the counter is below 255) and 1000
is subtracted from the sub-second counter; state, snapshot and port are
untouched.  In every other state the call leaves the supervisor data
completely unchanged.  The bound `d.timer + msecs < 65536` states that the
16-bit sub-second counter does not wrap, which holds at every call site
(the tick periods are 200 and 500 and the counter stays below 1000). -/
theorem C4_advance_accumulator :
    ∀ (d : Data) (msecs : Nat),
      ((d.state = state_t.boot_state ∨ d.state = state_t.shutdown_state) →
        d.timer + msecs < 65536 →
        (delay msecs d).state = d.state ∧
        (delay msecs d).pinb = d.pinb ∧
        (delay msecs d).portb = d.portb ∧
        (1000 ≤ d.timer + msecs →
          (delay msecs d).timer = d.timer + msecs - 1000 ∧
          (delay msecs d).seconds = (d.seconds + 1) % 256 ∧
          (d.seconds < 255 → (delay msecs d).seconds = d.seconds + 1)) ∧
        (d.timer + msecs < 1000 →
          (delay msecs d).timer = d.timer + msecs ∧
          (delay msecs d).seconds = d.seconds)) ∧
      ((d.state = state_t.idle_state ∨ d.state = state_t.poweroff_state ∨
        d.state = state_t.unknown_state) →
        delay msecs d = d) := by
  intro d msecs
  constructor
  · intro hst hov
    have hmod : (d.timer + msecs) % 65536 = d.timer + msecs := Nat.mod_eq_of_lt hov
    rw [delay_timed d msecs hst]
    simp only [hmod, ge_iff_le]
    split
    · next hge =>
      refine ⟨rfl, rfl, rfl, fun _ => ⟨rfl, rfl, fun hlt => ?_⟩, fun h => absurd hge (by omega)⟩
      exact Nat.mod_eq_of_lt (by omega)
    · next hlt =>
      refine ⟨rfl, rfl, rfl, fun h => absurd h (by omega), fun _ => ⟨rfl, rfl⟩⟩
  · intro hst
    exact delay_other d msecs hst

/-- Witness for C4: a concrete carry, from 900 ms accumulated plus a 200 ms
boot tick. -/
theorem C4_advance_accumulator_witness :
    (delay 200 (Data.mk state_t.boot_state 900 3 0 0)).timer = 900 + 200 - 1000 ∧
    (delay 200 (Data.mk state_t.boot_state 900 3 0 0)).seconds = 3 + 1 :=
  ⟨(((C4_advance_accumulator (Data.mk state_t.boot_state 900 3 0 0) 200).1
      (Or.inl rfl) (by norm_num)).2.2.2.1 (by norm_num)).1,
   (((C4_advance_accumulator (Data.mk state_t.boot_state 900 3 0 0) 200).1
      (Or.inl rfl) (by norm_num)).2.2.2.1 (by norm_num)).2.2 (by norm_num)⟩

/-! ### The interrupt handler, case by case -/

lemma ISR_btn_idle (p : Nat) (d : Data)
    (h1 : (p ^^^ d.pinb).testBit BTN = true) (h2 : p.testBit BTN = true)
    (hst : d.state = state_t.idle_state) :
    ISR p d = state_change state_t.shutdown_state { d with pinb := p } := by
  by_cases hin : ((p ^^^ d.pinb).testBit RPI_IN && p.testBit RPI_IN) = true <;>
    simp [ISR, h1, h2, hst, hin]

lemma ISR_btn_poweroff (p : Nat) (d : Data)
    (h1 : (p ^^^ d.pinb).testBit BTN = true) (h2 : p.testBit BTN = true)
    (hst : d.state = state_t.poweroff_state) :
    ISR p d = state_change state_t.boot_state { d with pinb := p } := by
  by_cases hin : ((p ^^^ d.pinb).testBit RPI_IN && p.testBit RPI_IN) = true <;>
    simp [ISR, h1, h2, hst, hin]

lemma ISR_state_portb_other (p : Nat) (d : Data)
    (hst : d.state = state_t.boot_state ∨ d.state = state_t.shutdown_state ∨
      d.state = state_t.unknown_state) :
    (ISR p d).state = d.state ∧ (ISR p d).portb = d.portb := by
  cases hA : p.testBit RPI_IN <;> cases hB : d.pinb.testBit RPI_IN <;>
  cases hC : p.testBit BTN <;> cases hD : d.pinb.testBit BTN <;>
    rcases hst with h | h | h <;>
      simp [ISR, hA, hB, hC, hD, h]

lemma ISR_host_boot (p : Nat) (d : Data)
    (h1 : (p ^^^ d.pinb).testBit RPI_IN = true) (h2 : p.testBit RPI_IN = true)
    (hst : d.state = state_t.boot_state) :
    ISR p d = { d with pinb := p, seconds := BOOT_TIMEOUT } := by
  by_cases hbtn : ((p ^^^ d.pinb).testBit BTN && p.testBit BTN) = true <;>
    simp [ISR, h1, h2, hst, hbtn]

lemma ISR_host_other (p : Nat) (d : Data)
    (hst : d.state ≠ state_t.boot_state)
    (hbtn : ¬((p ^^^ d.pinb).testBit BTN = true ∧ p.testBit BTN = true)) :
    ISR p d = { d with pinb := p } := by
  have hbtn2 : ((p ^^^ d.pinb).testBit BTN && p.testBit BTN) ≠ true := by
    simpa [Bool.and_eq_true] using hbtn
  by_cases hin : ((p ^^^ d.pinb).testBit RPI_IN && p.testBit RPI_IN) = true <;>
    cases h : d.state <;> simp_all [ISR]

lemma boot_tick_timeout (d : Data) (hst : d.state = state_t.boot_state)
    (hs : d.seconds = BOOT_TIMEOUT) :
    (boot_tick d).state = state_t.idle_state := by
  have h1 : ({ d with portb := TOGGLE d.portb LED } : Data).state = state_t.boot_state := hst
  simp only [boot_tick]
  rw [delay_timed _ _ (Or.inl h1)]
  split
  · simp [hs, BOOT_TIMEOUT, state_change]
  · simp [hs, BOOT_TIMEOUT, state_change]

/-- C2: on a button rising edge (the button bit changed in the XOR with the
stored snapshot and is now asserted), the handler transitions `idle_state`
to `shutdown_state` (asserting the shutdown line) and `poweroff_state` to
`boot_state` (asserting the active-low power-enable line and deasserting
the shutdown line); in `boot_state`, `shutdown_state` and `unknown_state`
the edge leaves the state and every output line unchanged. -/
theorem C2_button_rising_edge :
    ∀ (d : Data) (p : Nat),
      (p ^^^ d.pinb).testBit BTN = true →
      p.testBit BTN = true →
      (d.state = state_t.idle_state →
        (ISR p d).state = state_t.shutdown_state ∧
        (ISR p d).portb.testBit RPI_OUT = true) ∧
      (d.state = state_t.poweroff_state →
        (ISR p d).state = state_t.boot_state ∧
        (ISR p d).portb.testBit RPI_PWR = false ∧
        (ISR p d).portb.testBit RPI_OUT = false) ∧
      ((d.state = state_t.boot_state ∨ d.state = state_t.shutdown_state ∨
        d.state = state_t.unknown_state) →
        (ISR p d).state = d.state ∧ (ISR p d).portb = d.portb) := by
  intro d p h1 h2
  refine ⟨?_, ?_, fun h => ISR_state_portb_other p d h⟩
  · intro hst
    rw [ISR_btn_idle p d h1 h2 hst]
    refine ⟨rfl, ?_⟩
    have h := portb_state_change_shutdown { d with pinb := p } RPI_OUT (by norm_num [RPI_OUT])
    simpa using h
  · intro hst
    rw [ISR_btn_poweroff p d h1 h2 hst]
    refine ⟨rfl, ?_, ?_⟩
    · have h := portb_state_change_boot { d with pinb := p } RPI_PWR (by norm_num [RPI_PWR])
      simpa [LED, RPI_PWR, RPI_OUT] using h
    · have h := portb_state_change_boot { d with pinb := p } RPI_OUT (by norm_num [RPI_OUT])
      simpa [LED, RPI_PWR, RPI_OUT] using h

/-- Witness for C2: a button rising edge in `idle_state` transitions to
`shutdown_state`. -/
theorem C2_button_rising_edge_witness :
    (ISR 4 (Data.mk state_t.idle_state 0 0 0 2)).state = state_t.shutdown_state :=
  ((C2_button_rising_edge (Data.mk state_t.idle_state 0 0 0 2) 4
    (by decide) (by decide)).1 rfl).1

/-- C3: on a host-ready rising edge in `boot_state`, the handler forces
`seconds` to `BOOT_TIMEOUT` without changing the state or the output
lines, and the next boot tick then transitions to `idle_state` whatever
`timer` and however few ticks have elapsed; in any other state a
host-ready rising edge (with no simultaneous button rising edge) only
refreshes the pin snapshot. -/
theorem C3_host_ready_edge :
    ∀ (d : Data) (p : Nat),
      (p ^^^ d.pinb).testBit RPI_IN = true →
      p.testBit RPI_IN = true →
      (d.state = state_t.boot_state →
        (ISR p d).state = state_t.boot_state ∧
        (ISR p d).seconds = BOOT_TIMEOUT ∧
        (ISR p d).portb = d.portb ∧
        (boot_tick (ISR p d)).state = state_t.idle_state) ∧
      (d.state ≠ state_t.boot_state →
        ¬((p ^^^ d.pinb).testBit BTN = true ∧ p.testBit BTN = true) →
        ISR p d = { d with pinb := p }) := by
  intro d p h1 h2
  constructor
  · intro hst
    rw [ISR_host_boot p d h1 h2 hst]
    exact ⟨hst, rfl, rfl, boot_tick_timeout _ hst rfl⟩
  · intro hst hbtn
    exact ISR_host_other p d hst hbtn

/-- Witness for C3: a host-ready rising edge after a single 200 ms boot
tick makes the very next tick transition to `idle_state`. -/
theorem C3_host_ready_edge_witness :
    (boot_tick (ISR 8 (Data.mk state_t.boot_state 200 0 0 0))).state = state_t.idle_state :=
  ((C3_host_ready_edge (Data.mk state_t.boot_state 200 0 0 0) 8
    (by decide) (by decide)).1 rfl).2.2.2

/-- C10: the handler tests the host-ready edge before the button edge, so
when both lines rise in the same interrupt while in `poweroff_state`, the
host-ready branch is a no-op (it is tested against `poweroff_state`), the
button branch enters `boot_state`, and both clock counters end up zero:
the simultaneous host-ready assertion does not shorten the boot wait. -/
theorem C10_host_edge_checked_before_button :
    ∀ (d : Data) (p : Nat),
      d.state = state_t.poweroff_state →
      (p ^^^ d.pinb).testBit RPI_IN = true → p.testBit RPI_IN = true →
      (p ^^^ d.pinb).testBit BTN = true → p.testBit BTN = true →
      (ISR p d).state = state_t.boot_state ∧
      (ISR p d).timer = 0 ∧ (ISR p d).seconds = 0 := by
  intro d p hst hi1 hi2 hb1 hb2
  rw [ISR_btn_poweroff p d hb1 hb2 hst]
  exact ⟨rfl, rfl, rfl⟩

/-- Witness for C10: both lines rise at once (`PINB` goes from 0 to 12)
while powered off; the result is `boot_state` with zeroed counters. -/
theorem C10_host_edge_checked_before_button_witness :
    (ISR 12 (Data.mk state_t.poweroff_state 7 9 0 1)).state = state_t.boot_state ∧
    (ISR 12 (Data.mk state_t.poweroff_state 7 9 0 1)).timer = 0 ∧
    (ISR 12 (Data.mk state_t.poweroff_state 7 9 0 1)).seconds = 0 :=
  C10_host_edge_checked_before_button (Data.mk state_t.poweroff_state 7 9 0 1) 12
    rfl (by decide) (by decide) (by decide) (by decide)

/-! ### Boot tick iteration -/

lemma boot_tick_invariant_step (d : Data) (k : Nat) (hk : k < 200)
    (hs : d.state = state_t.boot_state)
    (ht : d.timer = (200 * k) % 1000)
    (hsec : d.seconds = k / 5) :
    (if k + 1 < 200 then
      (boot_tick d).state = state_t.boot_state ∧
      (boot_tick d).timer = (200 * (k + 1)) % 1000 ∧
      (boot_tick d).seconds = (k + 1) / 5 ∧
      (boot_tick d).pinb = d.pinb
    else (boot_tick d).state = state_t.idle_state) := by
  have h1 : ({ d with portb := TOGGLE d.portb LED } : Data).state = state_t.boot_state := hs
  simp only [boot_tick]
  rw [delay_timed _ _ (Or.inl h1)]
  simp only [ht, hsec, BOOT_TIMEOUT]
  have hmod : ((200 * k) % 1000 + 200) % 65536 = (200 * k) % 1000 + 200 :=
    Nat.mod_eq_of_lt (by omega)
  rw [hmod]
  by_cases hc : (200 * k) % 1000 + 200 ≥ 1000
  · rw [if_pos hc]
    split
    · next hlt =>
      rw [if_neg (by omega : ¬ (k / 5 + 1) % 256 ≥ 40)]
      refine ⟨hs, ?_, ?_, rfl⟩
      · show (200 * k) % 1000 + 200 - 1000 = (200 * (k + 1)) % 1000
        omega
      · show (k / 5 + 1) % 256 = (k + 1) / 5
        omega
    · next hge =>
      rw [if_pos (by omega : (k / 5 + 1) % 256 ≥ 40)]
      rfl
  · rw [if_neg hc]
    split
    · next hlt =>
      rw [if_neg (by omega : ¬ k / 5 ≥ 40)]
      refine ⟨hs, ?_, ?_, rfl⟩
      · show (200 * k) % 1000 + 200 = (200 * (k + 1)) % 1000
        omega
      · show k / 5 = (k + 1) / 5
        omega
    · next hge =>
      exact absurd hge (by omega)

lemma boot_iter (pn pb : Nat) :
    ∀ k, k ≤ 199 →
      (boot_tick^[k] (Data.mk state_t.boot_state 0 0 pn pb)).state = state_t.boot_state ∧
      (boot_tick^[k] (Data.mk state_t.boot_state 0 0 pn pb)).timer = (200 * k) % 1000 ∧
      (boot_tick^[k] (Data.mk state_t.boot_state 0 0 pn pb)).seconds = k / 5 ∧
      (boot_tick^[k] (Data.mk state_t.boot_state 0 0 pn pb)).pinb = pn := by
  intro k
  induction k with
  | zero => exact fun _ => ⟨rfl, by norm_num, by norm_num, rfl⟩
  | succ n ih =>
      intro hk
      obtain ⟨h1, h2, h3, h4⟩ := ih (by omega)
      have step := boot_tick_invariant_step _ n (by omega) h1 h2 h3
      rw [if_pos (by omega)] at step
      rw [Function.iterate_succ_apply']
      exact ⟨step.1, step.2.1, step.2.2.1, by rw [step.2.2.2, h4]⟩

set_option maxRecDepth 4000 in
/-- Counterexample to C5 as stated: from a fresh entry into `boot_state`
(both counters zero) 40 boot ticks of 200 ms accumulate only 8 simulated
seconds, so the machine is still in `boot_state` and has not transitioned
to `idle_state`. -/
theorem C5_forty_ticks_do_not_transition :
    (boot_tick^[40] (Data.mk state_t.boot_state 0 0 0 0)).state = state_t.boot_state ∧
    (boot_tick^[40] (Data.mk state_t.boot_state 0 0 0 0)).state ≠ state_t.idle_state ∧
    (boot_tick^[40] (Data.mk state_t.boot_state 0 0 0 0)).seconds = 8 := by
  decide

/-- C5 (amended): from a fresh entry into `boot_state` (both counters
zero) with no interrupts, the boot tick runs 200 iterations of 200 ms
(5 per simulated second) before `elapsed_seconds` reaches the 40-second
timeout: fewer than 200 iterations never transition, and the 200th
iteration performs exactly one transition, to `idle_state`. -/
theorem C5_boot_timeout_after_200_ticks :
    ∀ (pn pb : Nat),
      (∀ k, k < 200 →
        (boot_tick^[k] (Data.mk state_t.boot_state 0 0 pn pb)).state = state_t.boot_state) ∧
      (boot_tick^[200] (Data.mk state_t.boot_state 0 0 pn pb)).state = state_t.idle_state := by
  intro pn pb
  constructor
  · intro k hk
    exact (boot_iter pn pb k (by omega)).1
  · have h := boot_iter pn pb 199 (by norm_num)
    have step := boot_tick_invariant_step _ 199 (by norm_num) h.1 h.2.1 h.2.2.1
    rw [if_neg (by norm_num)] at step
    rw [show (200 : Nat) = 199 + 1 from rfl, Function.iterate_succ_apply']
    exact step

/-- Witness for the amended C5: at tick 199 the machine is still booting
and tick 200 enters `idle_state`. -/
theorem C5_boot_timeout_after_200_ticks_witness :
    (boot_tick^[199] (Data.mk state_t.boot_state 0 0 0 0)).state = state_t.boot_state ∧
    (boot_tick^[200] (Data.mk state_t.boot_state 0 0 0 0)).state = state_t.idle_state :=
  ⟨(C5_boot_timeout_after_200_ticks 0 0).1 199 (by norm_num),
   (C5_boot_timeout_after_200_ticks 0 0).2⟩

/-! ### What a dispatcher tick does to the output lines -/

lemma testBit_TOGGLE_ne (r i : Nat) (hne : i ≠ LED) :
    (TOGGLE r LED).testBit i = r.testBit i := by
  simp [testBit_TOGGLE, Ne.symm hne]

lemma bork_tick_eq (d : Data) : bork_tick d = d := by
  simp only [bork_tick, DELAY, TOGGLE]
  congr 1
  rw [Nat.xor_assoc, Nat.xor_self, Nat.xor_zero]

lemma boot_tick_struct (d : Data) :
    ((boot_tick d).state = state_t.idle_state ∧
      (boot_tick d).portb.testBit LED = true ∧
      ∀ i : Fin 8, i.val ≠ LED →
        (boot_tick d).portb.testBit i.val = d.portb.testBit i.val) ∨
    ((boot_tick d).state = d.state ∧ (boot_tick d).portb = TOGGLE d.portb LED) := by
  simp only [boot_tick]
  split
  · left
    refine ⟨rfl, ?_, ?_⟩
    · rw [portb_state_change_idle]
      simp
    · intro i hne
      rw [portb_state_change_idle, if_neg hne, delay_portb]
      exact testBit_TOGGLE_ne d.portb i.val hne
  · right
    exact ⟨delay_state _ _, delay_portb _ _⟩

lemma shutdown_tick_struct (d : Data) :
    ((shutdown_tick d).state = state_t.poweroff_state ∧
      (shutdown_tick d).portb.testBit RPI_PWR = true ∧
      (shutdown_tick d).portb.testBit RPI_OUT = false ∧
      (shutdown_tick d).portb.testBit LED = false ∧
      ∀ i : Fin 8, i.val ≠ RPI_PWR → i.val ≠ LED → i.val ≠ RPI_OUT →
        (shutdown_tick d).portb.testBit i.val = d.portb.testBit i.val) ∨
    ((shutdown_tick d).state = d.state ∧ (shutdown_tick d).portb = TOGGLE d.portb LED) := by
  simp only [shutdown_tick]
  split
  · left
    refine ⟨rfl, ?_, ?_, ?_, ?_⟩
    · have h := portb_state_change_poweroff
        (delay 500 { d with portb := TOGGLE d.portb LED }) RPI_PWR (by norm_num [RPI_PWR])
      simpa using h
    · have h := portb_state_change_poweroff
        (delay 500 { d with portb := TOGGLE d.portb LED }) RPI_OUT (by norm_num [RPI_OUT])
      simpa [RPI_PWR, RPI_OUT, LED] using h
    · have h := portb_state_change_poweroff
        (delay 500 { d with portb := TOGGLE d.portb LED }) LED (by norm_num [LED])
      simpa [RPI_PWR, RPI_OUT, LED] using h
    · intro i h0 h1 h4
      rw [portb_state_change_poweroff _ _ i.isLt, if_neg h0,
        if_neg (not_or.mpr ⟨h1, h4⟩), delay_portb]
      exact testBit_TOGGLE_ne d.portb i.val h1
  · right
    exact ⟨delay_state _ _, delay_portb _ _⟩

/-- Counterexample to C6 as stated: one boot tick of the dispatcher turns
the LED line on (blinking) while performing no state transition, so the
output lines are not left untouched between transitions and the LED level
is not a function of the state alone. -/
theorem C6_tick_toggles_led :
    (loop (Data.mk state_t.boot_state 0 0 0 0)).state =
      (Data.mk state_t.boot_state 0 0 0 0).state ∧
    (loop (Data.mk state_t.boot_state 0 0 0 0)).portb.testBit LED = true ∧
    (Data.mk state_t.boot_state 0 0 0 0).portb.testBit LED = false := by
  decide

/-- C6 (amended): a dispatcher pass that performs no state transition
modifies no output line other than the LED (which the timed states toggle
to blink); when a pass does transition, it applies exactly the entry
action of the new state: a boot timeout enters `idle_state` driving the
LED on and leaving every other line — power-enable and shutdown-request
included — at its previous level, and a shutdown timeout enters
`poweroff_state` deasserting power-enable (HIGH), deasserting the
shutdown line, clearing the LED and leaving every other line untouched.
The power-enable and shutdown-request lines are therefore written only by
entry actions. -/
theorem C6_outputs_written_by_entry_actions :
    ∀ d : Data,
      ((loop d).state = d.state →
        ∀ i : Fin 8, i.val ≠ LED →
          (loop d).portb.testBit i.val = d.portb.testBit i.val) ∧
      ((loop d).state ≠ d.state →
        ((loop d).state = state_t.idle_state ∧ d.state = state_t.boot_state ∧
          (loop d).portb.testBit LED = true ∧
          ∀ i : Fin 8, i.val ≠ LED →
            (loop d).portb.testBit i.val = d.portb.testBit i.val) ∨
        ((loop d).state = state_t.poweroff_state ∧ d.state = state_t.shutdown_state ∧
          (loop d).portb.testBit RPI_PWR = true ∧
          (loop d).portb.testBit RPI_OUT = false ∧
          (loop d).portb.testBit LED = false ∧
          ∀ i : Fin 8, i.val ≠ RPI_PWR → i.val ≠ LED → i.val ≠ RPI_OUT →
            (loop d).portb.testBit i.val = d.portb.testBit i.val)) := by
  intro d
  cases hd : d.state
  case unknown_state =>
    have hl : loop d = d := by
      simp only [loop, hd]
      exact bork_tick_eq d
    constructor
    · intro _ i _
      rw [hl]
    · intro hne
      rw [hl] at hne
      exact absurd hd hne
  case idle_state =>
    have hl : loop d = d := by simp only [loop, hd, sleep_mode]
    constructor
    · intro _ i _
      rw [hl]
    · intro hne
      rw [hl] at hne
      exact absurd hd hne
  case poweroff_state =>
    have hl : loop d = d := by simp only [loop, hd, sleep_mode]
    constructor
    · intro _ i _
      rw [hl]
    · intro hne
      rw [hl] at hne
      exact absurd hd hne
  case boot_state =>
    have hl : loop d = boot_tick d := by simp only [loop, hd]
    rcases boot_tick_struct d with ⟨h1, h2, h3⟩ | ⟨h1, h2⟩
    · constructor
      · intro hsame
        rw [hl, h1] at hsame
        exact absurd hsame (by decide)
      · intro _
        left
        rw [hl]
        exact ⟨h1, rfl, h2, h3⟩
    · constructor
      · intro _ i hne
        rw [hl, h2]
        exact testBit_TOGGLE_ne d.portb i.val hne
      · intro hne
        rw [hl, h1] at hne
        exact absurd hd hne
  case shutdown_state =>
    have hl : loop d = shutdown_tick d := by simp only [loop, hd]
    rcases shutdown_tick_struct d with ⟨h1, h2, h3, h4, h5⟩ | ⟨h1, h2⟩
    · constructor
      · intro hsame
        rw [hl, h1] at hsame
        exact absurd hsame (by decide)
      · intro _
        right
        rw [hl]
        exact ⟨h1, rfl, h2, h3, h4, h5⟩
    · constructor
      · intro _ i hne
        rw [hl, h2]
        exact testBit_TOGGLE_ne d.portb i.val hne
      · intro hne
        rw [hl, h1] at hne
        exact absurd hd hne

/-- Witness for the amended C6: a non-transitioning boot tick leaves the
power-enable line untouched. -/
theorem C6_outputs_written_by_entry_actions_witness :
    (loop (Data.mk state_t.boot_state 0 0 0 16)).portb.testBit (0 : Fin 8).val =
      (Data.mk state_t.boot_state 0 0 0 16).portb.testBit (0 : Fin 8).val :=
  (C6_outputs_written_by_entry_actions (Data.mk state_t.boot_state 0 0 0 16)).1
    (by decide) (0 : Fin 8) (by decide)

/-- C7: whatever the prior levels of the input lines (any snapshot value
`pinb0` read from `PINB`), `setup` ends in `poweroff_state` — never
`unknown_state` — with both clock counters zero and the `poweroff_state`
entry action applied: power-enable deasserted (driven HIGH on the
active-low line), LED off, shutdown line deasserted. -/
theorem C7_setup_forces_poweroff :
    ∀ pinb0 : Nat,
      (setup pinb0).state = state_t.poweroff_state ∧
      (setup pinb0).timer = 0 ∧
      (setup pinb0).seconds = 0 ∧
      (setup pinb0).pinb = pinb0 ∧
      (setup pinb0).portb.testBit RPI_PWR = true ∧
      (setup pinb0).portb.testBit LED = false ∧
      (setup pinb0).portb.testBit RPI_OUT = false := by
  intro p
  have hp : (setup p).portb = 1 := by
    simp [setup, state_change, LOW, HIGH, _BV, LED, BTN, RPI_PWR, RPI_IN, RPI_OUT]
  refine ⟨rfl, rfl, rfl, rfl, ?_, ?_, ?_⟩ <;> rw [hp] <;> decide

/-! ### The unknown state is unreachable after initialization -/

lemma loop_not_unknown (d : Data) (h : d.state ≠ state_t.unknown_state) :
    (loop d).state ≠ state_t.unknown_state := by
  cases hd : d.state
  case unknown_state => exact absurd hd h
  case boot_state =>
    have hl : loop d = boot_tick d := by simp only [loop, hd]
    rw [hl]
    rcases boot_tick_struct d with ⟨h1, _⟩ | ⟨h1, _⟩
    · rw [h1]
      decide
    · rw [h1, hd]
      decide
  case shutdown_state =>
    have hl : loop d = shutdown_tick d := by simp only [loop, hd]
    rw [hl]
    rcases shutdown_tick_struct d with ⟨h1, _⟩ | ⟨h1, _⟩
    · rw [h1]
      decide
    · rw [h1, hd]
      decide
  case idle_state =>
    have hl : loop d = d := by simp only [loop, hd, sleep_mode]
    rw [hl, hd]
    decide
  case poweroff_state =>
    have hl : loop d = d := by simp only [loop, hd, sleep_mode]
    rw [hl, hd]
    decide

lemma ISR_not_unknown (p : Nat) (d : Data) (h : d.state ≠ state_t.unknown_state) :
    (ISR p d).state ≠ state_t.unknown_state := by
  cases hA : p.testBit RPI_IN <;> cases hB : d.pinb.testBit RPI_IN <;>
  cases hC : p.testBit BTN <;> cases hD : d.pinb.testBit BTN <;>
    cases hd : d.state <;>
      simp_all [ISR, state_change]

lemma run_not_unknown (evs : List Ev) :
    ∀ d : Data, d.state ≠ state_t.unknown_state →
      (run evs d).state ≠ state_t.unknown_state := by
  induction evs with
  | nil => exact fun d h => h
  | cons e es ih =>
      intro d h
      have hr : run (e :: es) d = run es (runEv e d) := rfl
      rw [hr]
      apply ih
      cases e
      case tick => exact loop_not_unknown d h
      case irq p => exact ISR_not_unknown p d h

/-- C8: after `setup`, no interleaving of dispatcher passes and pin-change
interrupts can ever put the machine in `unknown_state`: no defined
transition targets it. -/
theorem C8_unknown_unreachable_after_setup :
    ∀ (pinb0 : Nat) (evs : List Ev),
      (run evs (setup pinb0)).state ≠ state_t.unknown_state := by
  intro p evs
  apply run_not_unknown
  have hs : (setup p).state = state_t.poweroff_state := rfl
  rw [hs]
  decide

/-- Witness for C8 at a concrete interleaving: one dispatcher pass and one
interrupt after `setup`. -/
theorem C8_unknown_unreachable_after_setup_witness :
    (run [Ev.tick, Ev.irq 12] (setup 0)).state ≠ state_t.unknown_state :=
  C8_unknown_unreachable_after_setup 0 [Ev.tick, Ev.irq 12]

/-- The full power cycle of C9: a button press while powered off, the 200
boot ticks that reach the boot timeout, a button release and a second
press while idle, and the 80 shutdown ticks that reach the shutdown
timeout. -/
def full_cycle : List Ev :=
  Ev.irq 4 :: (List.replicate 200 Ev.tick ++
    Ev.irq 0 :: Ev.irq 4 :: List.replicate 80 Ev.tick)

set_option maxRecDepth 100000 in
/-- C9: starting from the `poweroff_state` produced by `setup`, the full
cycle `PoweredOff → Booting → Idle → ShuttingDown → PoweredOff` (checked
at each stage) returns every output line of `PORTB` to exactly its
original `poweroff_state` level. -/
theorem C9_round_trip_restores_outputs :
    (run [Ev.irq 4] (setup 0)).state = state_t.boot_state ∧
    (run (Ev.irq 4 :: List.replicate 200 Ev.tick) (setup 0)).state = state_t.idle_state ∧
    (run (Ev.irq 4 :: (List.replicate 200 Ev.tick ++ [Ev.irq 0, Ev.irq 4])) (setup 0)).state =
      state_t.shutdown_state ∧
    (run full_cycle (setup 0)).state = state_t.poweroff_state ∧
    (run full_cycle (setup 0)).portb = (setup 0).portb := by
  decide
